import Mathlib

/-!
Shallow embedding of the nbusy-server delivery queue (src/queue.go) and the
TLS listener's client handler (src/listener.go), with theorems checking the
natural-language specification against the code.

Go maps (the cmap wrappers) are modelled as association lists; Go slices are
modelled by their backing array together with an explicit length, so that the
in-place mutation performed by the drain loop of processQueue is reproduced
exactly, including its slice-bound panics.  Strings of bytes are lists of
naturals.  log.Fatal / log.Fatalln terminate the whole process and are
modelled as an explicit process-exit outcome.
-/

namespace NBusy

/-- Association-list lookup, modelling the GetOk operation of cmap. -/
def mapGetOk {α : Type} (m : List (String × α)) (k : String) : Option α :=
  match m with
  | [] => none
  | (k0, v) :: rest => if k0 = k then some v else mapGetOk rest k

/-- Association-list update, modelling the Set operation of cmap. -/
def mapSet {α : Type} (m : List (String × α)) (k : String) (v : α) : List (String × α) :=
  match m with
  | [] => [(k, v)]
  | (k0, v0) :: rest => if k0 = k then (k, v) :: rest else (k0, v0) :: mapSet rest k v

/-- Association-list removal, modelling the Delete operation of cmap. -/
def mapDelete {α : Type} (m : List (String × α)) (k : String) : List (String × α) :=
  match m with
  | [] => []
  | (k0, v0) :: rest => if k0 = k then mapDelete rest k else (k0, v0) :: mapDelete rest k

/-- A queuedRequest from queue.go.  The params payload and the response
handler are abstracted to identifying strings; only their identity matters
to the queue logic. -/
structure QueuedRequest where
  method : String
  params : String
  deriving DecidableEq, Repr

/-- The zero value of the queuedRequest struct, written into the slice by
the removal step of processQueue. -/
def zeroRequest : QueuedRequest := ⟨"", ""⟩

/-- State of the Queue struct from queue.go: conns maps user ID to conn ID,
mutexes maps user ID to the stored sync.RWMutex value (modelled by its
locked flag; the zero value stored by SetConn is unlocked, i.e. false), and
reqs maps user ID to the queued-request slice contents. -/
structure QueueState where
  conns : List (String × String)
  mutexes : List (String × Bool)
  reqs : List (String × List QueuedRequest)
  deriving DecidableEq, Repr

/-- The empty queue produced by NewQueue. -/
def emptyQueue : QueueState := ⟨[], [], []⟩

/-- SetConn from queue.go: if no conn entry exists for the user, record the
conn ID, store a fresh zero RWMutex, and spawn processQueue (the returned
flag records that a drain was triggered); otherwise do nothing. -/
def SetConn (userID connID : String) (st : QueueState) : QueueState × Bool :=
  match mapGetOk st.conns userID with
  | some _ => (st, false)
  | none =>
    ({ st with
        conns := mapSet st.conns userID connID,
        mutexes := mapSet st.mutexes userID false }, true)

/-- RemoveConn from queue.go: deletes the user's conn entry and mutex entry;
the reqs map is not touched. -/
def RemoveConn (userID : String) (st : QueueState) : QueueState :=
  { st with
      conns := mapDelete st.conns userID,
      mutexes := mapDelete st.mutexes userID }

/-- The enqueue step performed by the goroutine spawned in AddRequest from
queue.go: append the request to the user's slice, creating it if absent.
The goroutine then spawns processQueue. -/
def addRequestEnqueue (userID : String) (r : QueuedRequest) (st : QueueState) : QueueState :=
  match mapGetOk st.reqs userID with
  | some rs => { st with reqs := mapSet st.reqs userID (rs ++ [r]) }
  | none => { st with reqs := mapSet st.reqs userID [r] }

/-- Outcome of one run of the drain loop inside processQueue. -/
inductive DrainOutcome where
  | ok (arr : List QueuedRequest) (len : Nat)
  | fatalExit
  | slicePanic
  deriving DecidableEq, Repr

/-- The loop for i, req := range reqs of processQueue in queue.go, embedded
with Go slice semantics.  The range header is evaluated once, so the loop
runs for the initial length L while reading the shared backing array a,
which the body mutates in place.  On a successful hand-off the body executes
the tuple assignment
  reqs, reqs[len(reqs)-1] = append(reqs[:i], reqs[i+1:]...), queuedRequest{}
where reqs is the current slice of length curLen over the same array: the
slice expression reqs[i+1:] uses the default high bound len(reqs) = curLen
and panics when i+1 exceeds it; otherwise append shifts the elements
a[i+1 .. curLen) left by one in place and the old last position curLen-1 is
zeroed.  On a failed hand-off the code calls log.Fatal, which exits the
process.  The list of requests handed to router.SendRequest is accumulated
in sent, in order. -/
def drainLoopAux (send : QueuedRequest → Bool) :
    Nat → Nat → List QueuedRequest → Nat → List QueuedRequest →
    DrainOutcome × List QueuedRequest
  | 0, _, a, curLen, sent => (.ok a curLen, sent)
  | rem + 1, i, a, curLen, sent =>
    let req := a.getD i zeroRequest
    let sent2 := sent ++ [req]
    if send req then
      if curLen < i + 1 then (.slicePanic, sent2)
      else
        let a2 := a.take i ++ (a.drop (i + 1)).take (curLen - 1 - i) ++ a.drop (curLen - 1)
        let a3 := a2.set (curLen - 1) zeroRequest
        drainLoopAux send rem (i + 1) a3 (curLen - 1) sent2
    else (.fatalExit, sent2)

/-- The drain loop of processQueue started on the slice rs fetched from the
reqs map: the range header captures length rs.length and the backing array
initially holds exactly the slice contents. -/
def drainLoop (send : QueuedRequest → Bool) (rs : List QueuedRequest) :
    DrainOutcome × List QueuedRequest :=
  drainLoopAux send rs.length 0 rs rs.length []

/-- Result of one processQueue execution: either it returned normally with
the resulting queue state, or log.Fatal terminated the process, or a
runtime panic (slice bound, or nil type assertion on a missing mutex)
crashed it.  The second component lists the requests handed to the router,
in order. -/
inductive ProcOutcome where
  | ran (st : QueueState)
  | fatalExit
  | panicked
  deriving DecidableEq, Repr

/-- processQueue from queue.go, run to completion in isolation.  The send
argument models router.SendRequest for the bound conn ID, returning true on
a nil error.  If the user has no conn entry the function returns at once.
Otherwise it fetches the stored mutex value (a nil type assertion panics if
the entry is missing), locks its local copy, drains, and on normal
completion stores the final slice contents back into the reqs map. -/
def processQueue (send : String → QueuedRequest → Bool) (userID : String)
    (st : QueueState) : ProcOutcome × List QueuedRequest :=
  match mapGetOk st.conns userID with
  | none => (.ran st, [])
  | some connID =>
    match mapGetOk st.mutexes userID with
    | none => (.panicked, [])
    | some _ =>
      match mapGetOk st.reqs userID with
      | none => (.ran st, [])
      | some rs =>
        match drainLoop (send connID) rs with
        | (.ok a len, sent) =>
          (.ran { st with reqs := mapSet st.reqs userID (a.take len) }, sent)
        | (.fatalExit, sent) => (.fatalExit, sent)
        | (.slicePanic, sent) => (.panicked, sent)

/-- A router whose hand-offs always succeed. -/
def okRouter : String → QueuedRequest → Bool := fun _ _ => true

/-- A router whose hand-offs always fail. -/
def failRouter : String → QueuedRequest → Bool := fun _ _ => false

/-- First request of the C1 scenario. -/
def reqA : QueuedRequest := ⟨"mA", "pA"⟩

/-- Second request of the C1 scenario. -/
def reqB : QueuedRequest := ⟨"mB", "pB"⟩

/-- Third request of the C1 scenario. -/
def reqC : QueuedRequest := ⟨"mC", "pC"⟩

/-- Queue state after AddRequest of reqA, reqB, reqC for user u, before any
connection is associated. -/
def stABC : QueueState :=
  addRequestEnqueue "u" reqC (addRequestEnqueue "u" reqB (addRequestEnqueue "u" reqA emptyQueue))

/-- Queue state after the subsequent SetConn for user u. -/
def stABCconn : QueueState := (SetConn "u" "conn1" stABC).1

/-- Queue state with the single request reqB queued for user u and a
connection associated. -/
def stBconn : QueueState := (SetConn "u" "conn1" (addRequestEnqueue "u" reqB emptyQueue)).1

/-- Phase of one processQueue goroutine with respect to the per-user mutex:
before fetching the mutex from the map, after fetching it, inside the
drain body between Lock and Unlock, and after Unlock. -/
inductive DrainPhase where
  | start
  | fetched
  | inCS
  | finished
  deriving DecidableEq, Repr

/-- One processQueue goroutine: its phase, and its local copy of the
RWMutex value (modelled by the locked flag) produced by the type assertion
on the value fetched from the mutexes map. -/
structure DrainThread where
  phase : DrainPhase
  localMutex : Bool
  deriving DecidableEq, Repr

/-- Shared state of two concurrent processQueue executions for the same
user: the RWMutex value stored in the mutexes map and the two goroutines. -/
structure RaceState where
  stored : Bool
  t1 : DrainThread
  t2 : DrainThread
  deriving DecidableEq, Repr

/-- Mutex-relevant steps of one processQueue goroutine, exactly as queue.go
performs them: fetch copies the stored RWMutex value out of the map into a
local variable, leaving the map entry unchanged; lock acquires the
goroutine's own local copy, which succeeds whenever that copy is unlocked;
unlock releases the local copy.  The stored value is never written. -/
inductive ThreadStep : Bool × DrainThread → Bool × DrainThread → Prop where
  | fetch (m l : Bool) : ThreadStep (m, ⟨.start, l⟩) (m, ⟨.fetched, m⟩)
  | lock (m : Bool) : ThreadStep (m, ⟨.fetched, false⟩) (m, ⟨.inCS, true⟩)
  | unlock (m l : Bool) : ThreadStep (m, ⟨.inCS, l⟩) (m, ⟨.finished, false⟩)

/-- Arbitrary interleaving of the two goroutines. -/
inductive RaceStep : RaceState → RaceState → Prop where
  | left {s : RaceState} {m : Bool} {t : DrainThread} :
      ThreadStep (s.stored, s.t1) (m, t) → RaceStep s ⟨m, t, s.t2⟩
  | right {s : RaceState} {m : Bool} {t : DrainThread} :
      ThreadStep (s.stored, s.t2) (m, t) → RaceStep s ⟨m, s.t1, t⟩

/-- Both goroutines at their start, with the zero (unlocked) RWMutex value
that SetConn stored in the mutexes map. -/
def raceInit : RaceState := ⟨false, ⟨.start, false⟩, ⟨.start, false⟩⟩

/-- Value of one decimal digit character, as used by strconv.Atoi. -/
def digitVal (c : Char) : Option Nat :=
  if c.isDigit then some (c.toNat - 48) else none

/-- Base-10 parse of a nonempty all-digit character list; none otherwise. -/
def parseNatDigits (cs : List Char) : Option Nat :=
  if cs = [] then none
  else
    cs.foldl
      (fun acc c =>
        match acc, digitVal c with
        | some a, some d => some (a * 10 + d)
        | _, _ => none)
      (some 0)

/-- strconv.Atoi from the header parse in listener.go: optional sign then
decimal digits; none models a non-nil error return. -/
def atoi (s : String) : Option Int :=
  match s.data with
  | '-' :: rest => (parseNatDigits rest).map (fun n => -(n : Int))
  | '+' :: rest => (parseNatDigits rest).map (fun n => (n : Int))
  | cs => (parseNatDigits cs).map (fun n => (n : Int))

/-- The 4-byte ping control payload. -/
def pingBytes : List Nat := [112, 105, 110, 103]

/-- The 5-byte close control payload. -/
def closeBytes : List Nat := [99, 108, 111, 115, 101]

/-- Result of one bufio ReadSlice call for the header line: the bytes up to
the newline (given without the trailing newline), or a read error, which
includes the idle read deadline expiring. -/
inductive HeaderRead where
  | line (s : String)
  | readErr
  deriving DecidableEq, Repr

/-- Result of one reader.Read call in the body loop: a chunk of bytes
delivered by this read, or a read error, which includes the idle read
deadline expiring mid-frame. -/
inductive ReadEvent where
  | chunk (bs : List Nat)
  | readErr
  deriving DecidableEq, Repr

/-- How one iteration of the handleClient loop in listener.go terminates:
log.Fatalln exits the whole process; make with a negative length raises a
runtime error; a close frame spawns handleDisconn and returns, closing the
connection; otherwise the loop proceeds to the next frame. -/
inductive IterOutcome where
  | procExit
  | runtimeError
  | closedConn
  | continueLoop
  deriving DecidableEq, Repr

/-- Observable result of one handleClient loop iteration: the outcome, how
many times handleMsg and handleDisconn were invoked, and the payload passed
to handleMsg when it was invoked. -/
structure IterResult where
  outcome : IterOutcome
  msgCalls : Nat
  disconnCalls : Nat
  frame : Option (List Nat)
  deriving DecidableEq, Repr

/-- The body read loop of handleClient: msg is the n-byte buffer, total the
count read so far.  Each reader.Read writes its chunk at offset 0 of msg
(the code passes msg, not a slice starting at total) and returns the byte
count, which is added to total.  A read error ends the loop with a fatal
log; an exhausted event list while total is short models the read blocking
until the idle deadline fires, also a read error. -/
def readBody (n : Nat) : List ReadEvent → List Nat → Nat → Option (List Nat)
  | [], msg, total => if n ≤ total then some msg else none
  | ReadEvent.readErr :: _, msg, total => if n ≤ total then some msg else none
  | ReadEvent.chunk bs :: rest, msg, total =>
    if n ≤ total then some msg
    else
      readBody n rest
        (bs.take (min bs.length n) ++ msg.drop (min bs.length n))
        (total + min bs.length n)

/-- The control-payload dispatch at the end of a handleClient iteration: a
4-byte ping continues the loop with no handler call; a 5-byte close spawns
handleDisconn once and returns; anything else spawns handleMsg with the
assembled payload and continues the loop. -/
def dispatchFrame (n : Nat) (msg : List Nat) : IterResult :=
  if n = 4 ∧ msg = pingBytes then ⟨.continueLoop, 0, 0, none⟩
  else if n = 5 ∧ msg = closeBytes then ⟨.closedConn, 0, 1, none⟩
  else ⟨.continueLoop, 1, 0, some msg⟩

/-- One iteration of the handleClient read loop from listener.go: read the
header line (an error is logged fatally, exiting the process); parse it with
strconv.Atoi, rejecting fatally on a parse error or a zero value; allocate
the n-byte buffer with make, which raises a runtime error when n is
negative; run the body read loop; then dispatch the assembled payload. -/
def handleClientIter (header : HeaderRead) (reads : List ReadEvent) : IterResult :=
  match header with
  | .readErr => ⟨.procExit, 0, 0, none⟩
  | .line s =>
    match atoi s with
    | none => ⟨.procExit, 0, 0, none⟩
    | some n =>
      if n = 0 then ⟨.procExit, 0, 0, none⟩
      else if n < 0 then ⟨.runtimeError, 0, 0, none⟩
      else
        match readBody n.toNat reads (List.replicate n.toNat 0) 0 with
        | none => ⟨.procExit, 0, 0, none⟩
        | some msg => dispatchFrame n.toNat msg

/-- Looking up the key just set returns the value just set. -/
theorem mapGetOk_mapSet_self {α : Type} (m : List (String × α)) (k : String) (v : α) :
    mapGetOk (mapSet m k v) k = some v := by
  induction m with
  | nil => simp [mapSet, mapGetOk]
  | cons p rest ih =>
    obtain ⟨k0, v0⟩ := p
    by_cases h : k0 = k
    · simp [mapSet, mapGetOk, h]
    · simp [mapSet, mapGetOk, h, ih]

/-- Looking up a deleted key returns none. -/
theorem mapGetOk_mapDelete_self {α : Type} (m : List (String × α)) (k : String) :
    mapGetOk (mapDelete m k) k = none := by
  induction m with
  | nil => simp [mapDelete, mapGetOk]
  | cons p rest ih =>
    obtain ⟨k0, v0⟩ := p
    by_cases h : k0 = k
    · simp [mapDelete, mapGetOk, h, ih]
    · simp [mapDelete, mapGetOk, h, ih]

/-- Deleting one key leaves every other key's binding unchanged. -/
theorem mapGetOk_mapDelete_other {α : Type} (m : List (String × α)) (k k2 : String)
    (h : k2 ≠ k) : mapGetOk (mapDelete m k) k2 = mapGetOk m k2 := by
  induction m with
  | nil => simp [mapDelete]
  | cons p rest ih =>
    obtain ⟨k0, v0⟩ := p
    by_cases h0 : k0 = k
    · subst h0
      have : ¬ k0 = k2 := fun hh => h hh.symm
      simp [mapDelete, mapGetOk, this, ih]
    · simp [mapDelete, mapGetOk, h0, ih]

/-- C1: with requests reqA, reqB, reqC enqueued for user u before any
association, the drain before SetConn is a no-op, and the drain triggered
by SetConn does NOT hand off A, B, C in order each exactly once even though
every router hand-off succeeds: removing entries by index while ranging
over the slice makes it hand off reqA, then reqC (skipping reqB), then the
zero-valued request, and then hit a slice-bound runtime error.  This
evaluates the code at the failing input of the code-bug report. -/
theorem processQueue_fifo_violated :
    processQueue okRouter "u" stABC = (.ran stABC, []) ∧
    processQueue okRouter "u" stABCconn = (.panicked, [reqA, reqC, zeroRequest]) :=
  ⟨rfl, rfl⟩

/-- C2: the per-user delivery lock provides no mutual exclusion: each
processQueue goroutine fetches a copy of the RWMutex value from the map and
locks only its own copy, so from the initial state an interleaving of two
concurrent drains for the same user reaches a state in which both are
inside the drain body simultaneously. -/
theorem copied_mutex_both_drains_in_critical_section :
    ∃ s : RaceState, Relation.ReflTransGen RaceStep raceInit s ∧
      s.t1.phase = DrainPhase.inCS ∧ s.t2.phase = DrainPhase.inCS := by
  refine ⟨⟨false, ⟨.inCS, true⟩, ⟨.inCS, true⟩⟩, ?_, rfl, rfl⟩
  have h1 : RaceStep raceInit ⟨false, ⟨.fetched, false⟩, ⟨.start, false⟩⟩ :=
    RaceStep.left (ThreadStep.fetch false false)
  have h2 : RaceStep ⟨false, ⟨.fetched, false⟩, ⟨.start, false⟩⟩
      ⟨false, ⟨.fetched, false⟩, ⟨.fetched, false⟩⟩ :=
    RaceStep.right (ThreadStep.fetch false false)
  have h3 : RaceStep ⟨false, ⟨.fetched, false⟩, ⟨.fetched, false⟩⟩
      ⟨false, ⟨.inCS, true⟩, ⟨.fetched, false⟩⟩ :=
    RaceStep.left (ThreadStep.lock false)
  have h4 : RaceStep ⟨false, ⟨.inCS, true⟩, ⟨.fetched, false⟩⟩
      ⟨false, ⟨.inCS, true⟩, ⟨.inCS, true⟩⟩ :=
    RaceStep.right (ThreadStep.lock false)
  exact .head h1 (.head h2 (.head h3 (.head h4 .refl)))

/-- C3: when the router hand-off of the queued request reqB fails, the
drain does not stop and leave reqB queued for a later trigger: the code
calls log.Fatal, which terminates the whole process.  This evaluates the
code at the failing input of the code-bug report. -/
theorem processQueue_handoff_failure_is_fatal :
    processQueue failRouter "u" stBconn = (.fatalExit, [reqB]) := rfl

/-- C4: a non-numeric length header, a zero length header, a missing header
(read error before the newline), and a read error mid-frame each make
handleClient call log.Fatalln, exiting the whole process rather than only
ending the connection.  This evaluates the code at the failing inputs of
the code-bug report. -/
theorem handleClient_malformed_input_is_process_fatal :
    handleClientIter (.line "abc") [] = ⟨.procExit, 0, 0, none⟩ ∧
    handleClientIter (.line "0") [] = ⟨.procExit, 0, 0, none⟩ ∧
    handleClientIter .readErr [] = ⟨.procExit, 0, 0, none⟩ ∧
    handleClientIter (.line "3") [.chunk [1], .readErr] = ⟨.procExit, 0, 0, none⟩ :=
  ⟨rfl, rfl, rfl, rfl⟩

/-- C5: the valid 2-byte frame with payload 97, 98 decodes correctly when
it arrives in one read, but when the same payload arrives in two reads the
decoded frame is 98, 0 — each read writes at offset 0 of the buffer — so
the decoded frame is not independent of how the bytes are partitioned
across reads.  This evaluates the code at the failing input of the
code-bug report. -/
theorem fragmented_read_corrupts_frame :
    handleClientIter (.line "2") [.chunk [97, 98]] = ⟨.continueLoop, 1, 0, some [97, 98]⟩ ∧
    handleClientIter (.line "2") [.chunk [97], .chunk [98]] = ⟨.continueLoop, 1, 0, some [98, 0]⟩ :=
  ⟨rfl, rfl⟩

/-- C6: a close control frame does invoke the disconnect handler exactly
once and close the connection, but an idle timeout or read error before the
header, a fatal decode error, and a read error mid-frame each exit the
whole process with the disconnect handler invoked zero times.  This
evaluates the code at the failing inputs of the code-bug report. -/
theorem disconnect_handler_not_called_on_read_error :
    handleClientIter (.line "5") [.chunk closeBytes] = ⟨.closedConn, 0, 1, none⟩ ∧
    handleClientIter .readErr [] = ⟨.procExit, 0, 0, none⟩ ∧
    handleClientIter (.line "x") [] = ⟨.procExit, 0, 0, none⟩ ∧
    handleClientIter (.line "4") [.readErr] = ⟨.procExit, 0, 0, none⟩ :=
  ⟨rfl, rfl, rfl, rfl⟩

/-- C7: the header guard accepts a negative decimal length header: Atoi
parses the 2-character header minus-one successfully and the value is
nonzero, so neither rejection branch fires, and the subsequent make with a
negative length raises a runtime error instead of being handled as a
normal framing error. -/
theorem negative_length_header_passes_guard_and_panics :
    atoi "-1" = some (-1) ∧ (-1 : Int) ≠ 0 ∧
    handleClientIter (.line "-1") [] = ⟨.runtimeError, 0, 0, none⟩ :=
  ⟨rfl, by decide, rfl⟩

/-- C8: SetConn is idempotent with first-writer-wins semantics: when no
conn entry exists for the user it records the given conn ID and triggers a
drain, and a second SetConn with a different conn ID is then a no-op; when
an entry already exists, SetConn changes nothing and the directory keeps
the original conn ID. -/
theorem SetConn_first_writer_wins (st : QueueState) (U c c2 : String) :
    (mapGetOk st.conns U = none →
      mapGetOk (SetConn U c st).1.conns U = some c ∧
      (SetConn U c st).2 = true ∧
      SetConn U c2 (SetConn U c st).1 = ((SetConn U c st).1, false)) ∧
    (∀ c0, mapGetOk st.conns U = some c0 →
      SetConn U c2 st = (st, false) ∧
      mapGetOk (SetConn U c2 st).1.conns U = some c0) := by
  constructor
  · intro h
    simp [SetConn, h, mapGetOk_mapSet_self]
  · intro c0 h
    simp [SetConn, h]

/-- Witness for C8 at a concrete state: in the empty queue state, SetConn
for user u records conn c1 and triggers a drain, a repeated SetConn with c2
is a no-op, and the directory still maps u to c1. -/
theorem SetConn_first_writer_wins_witness :
    mapGetOk (SetConn "u" "c1" emptyQueue).1.conns "u" = some "c1" ∧
    (SetConn "u" "c1" emptyQueue).2 = true ∧
    SetConn "u" "c2" (SetConn "u" "c1" emptyQueue).1 =
      ((SetConn "u" "c1" emptyQueue).1, false) ∧
    mapGetOk (SetConn "u" "c2" (SetConn "u" "c1" emptyQueue).1).1.conns "u" = some "c1" :=
  ⟨((SetConn_first_writer_wins emptyQueue "u" "c1" "c2").1 rfl).1,
   ((SetConn_first_writer_wins emptyQueue "u" "c1" "c2").1 rfl).2.1,
   ((SetConn_first_writer_wins emptyQueue "u" "c1" "c2").1 rfl).2.2,
   ((SetConn_first_writer_wins (SetConn "u" "c1" emptyQueue).1 "u" "c2" "c2").2 "c1"
      (by rfl)).2⟩

/-- C9: an application frame whose 4-byte payload is the literal ping
invokes neither the message handler nor the disconnect handler and the
read loop continues to the next frame, both at the dispatch step and for a
full loop iteration receiving the frame. -/
theorem ping_frame_no_handler_connection_open :
    dispatchFrame 4 pingBytes = ⟨.continueLoop, 0, 0, none⟩ ∧
    handleClientIter (.line "4") [.chunk pingBytes] = ⟨.continueLoop, 0, 0, none⟩ :=
  ⟨rfl, rfl⟩

/-- C10: RemoveConn leaves the reqs map entirely unchanged — pending queued
requests are retained — removes the user's directory entry, and leaves the
directory entry of every other user unchanged. -/
theorem RemoveConn_retains_reqs (st : QueueState) (U : String) :
    (RemoveConn U st).reqs = st.reqs ∧
    mapGetOk (RemoveConn U st).conns U = none ∧
    ∀ V, V ≠ U → mapGetOk (RemoveConn U st).conns V = mapGetOk st.conns V :=
  ⟨rfl, mapGetOk_mapDelete_self st.conns U,
   fun V h => mapGetOk_mapDelete_other st.conns U V h⟩

/-- A concrete queue state used by the RemoveConn witness: users u and v
are associated and u has the request reqA pending. -/
def stTwoUsers : QueueState :=
  ⟨[("u", "c1"), ("v", "c2")], [("u", false), ("v", false)], [("u", [reqA])]⟩

/-- Witness for C10 at a concrete state: removing the connection of user u
keeps the pending request of u in the reqs map, clears only the directory
entry of u, and leaves the entry of user v unchanged. -/
theorem RemoveConn_retains_reqs_witness :
    (RemoveConn "u" stTwoUsers).reqs = stTwoUsers.reqs ∧
    mapGetOk (RemoveConn "u" stTwoUsers).conns "u" = none ∧
    mapGetOk (RemoveConn "u" stTwoUsers).conns "v" = mapGetOk stTwoUsers.conns "v" :=
  ⟨(RemoveConn_retains_reqs stTwoUsers "u").1,
   (RemoveConn_retains_reqs stTwoUsers "u").2.1,
   (RemoveConn_retains_reqs stTwoUsers "u").2.2 "v" (by decide)⟩

end NBusy


